import Mathlib

/-!
Verification of the SIMBAD candidate screening and trial-scheduling engine.

Shallow embedding of the Python sources under simbad/ into Lean 4.
Numeric values parsed from logs are modelled as rationals; Python
exceptions are modelled with an explicit error type and Except; the
stateful scheduler loops are modelled as folds over explicit state.
All embeddings target POSIX behaviour (os.name is not nt, os.linesep
is a newline, os.devnull is /dev/null), matching the platform the
pipeline runs on.
-/

/-- Python exceptions that the embedded code can raise. -/
inductive PyError where
  | nameError (name : String) : PyError
  | runtimeError (msg : String) : PyError
  | keyError (key : String) : PyError
  deriving Repr, DecidableEq

/-- os.path.join for two components, POSIX semantics (posixpath.join):
a second component beginning with the separator replaces the first; an
empty first component, or one ending with the separator, is directly
prefixed; otherwise a separator is inserted.  The begins-with and
ends-with tests are expressed on the character list of the string. -/
def pathJoin (a b : String) : String :=
  if b.data.head? = some ('/') then b
  else if a = "" then b
  else if a.data.getLast? = some ('/') then a ++ b
  else a ++ "/" ++ b

/-- Python truthiness of an optional float: None and 0.0 are falsy. -/
def pyTruthy (x : Option ℚ) : Bool :=
  match x with
  | none => false
  | some q => q ≠ 0

/- ### simbad/mr/__init__.py : success predicates (module level) -/

/-- simbad.mr._mr_job_succeeded: r_fact < 0.45 and r_free < 0.45. -/
def _mr_job_succeeded (r_fact r_free : ℚ) : Bool :=
  r_fact < 45/100 && r_free < 45/100

/-- simbad.mr._refinement_succeeded: r_fact < 0.45 and r_free < 0.45. -/
def _refinement_succeeded (r_fact r_free : ℚ) : Bool :=
  r_fact < 45/100 && r_free < 45/100

/-- simbad.mr._phaser_succeeded: llg > 120 and tfz > 8. -/
def _phaser_succeeded (llg tfz : ℚ) : Bool :=
  llg > 120 && tfz > 8

/-- simbad.mr.mr_succeeded_csvfile, per-row test in the branch where the
phaser columns exist: a row succeeds when refinement succeeded or the
phaser placement succeeded. -/
def mr_succeeded_row (r_fact r_free llg tfz : ℚ) : Bool :=
  _refinement_succeeded r_fact r_free || _phaser_succeeded llg tfz

/-- simbad.mr.mr_succeeded_csvfile on the parsed rows of the CSV file
(final_r_fact, final_r_free, phaser_llg, phaser_tfz per row): any row
succeeding makes the whole check succeed. -/
def mr_succeeded_csvfile (rows : List (ℚ × ℚ × ℚ × ℚ)) : Bool :=
  rows.any (fun r => _refinement_succeeded r.1 r.2.1 || _phaser_succeeded r.2.2.1 r.2.2.2)

/- ### simbad/rotsearch/amore_search.py : rotation success predicate -/

/-- AmoreRotationSearch._rot_job_succeeded: amore_z_score > 10. -/
def _rot_job_succeeded (amore_z_score : ℚ) : Bool :=
  amore_z_score > 10

/-- C4: the replacement-stage per-row success predicate holds iff
(llg > 120 and tfz > 8) or (r_fact < 0.45 and r_free < 0.45), and the
boundary values llg = 120, tfz = 8, r_fact = r_free = 0.45 are not a
success. -/
theorem mr_succeeded_row_iff :
    (∀ r_fact r_free llg tfz : ℚ,
      mr_succeeded_row r_fact r_free llg tfz = true ↔
        ((llg > 120 ∧ tfz > 8) ∨ (r_fact < 45/100 ∧ r_free < 45/100))) ∧
    mr_succeeded_row (45/100) (45/100) 120 8 = false := by
  constructor
  · intro r_fact r_free llg tfz
    simp [mr_succeeded_row, _refinement_succeeded, _phaser_succeeded, or_comm]
  · norm_num [mr_succeeded_row, _refinement_succeeded, _phaser_succeeded]

/-- C7: the rotation-stage success predicate holds iff the primary
Z-score is strictly greater than 10, and a score of exactly 10 is not a
success. -/
theorem rot_job_succeeded_iff :
    (∀ z : ℚ, _rot_job_succeeded z = true ↔ z > 10) ∧
    _rot_job_succeeded 10 = false := by
  constructor
  · intro z
    simp [_rot_job_succeeded]
  · norm_num [_rot_job_succeeded]

/- ### simbad/rotsearch/amore_search.py : chunked iteration over the
ranked candidate list (AmoreRotationSearch.run).  The loop iterates
i over range(0, n_files, chunk_size) and submits the slice
sorted_dat_models[i : i + chunk_size] in each cycle. -/

/-- Python range(0, n, c) for step c >= 1: the starts of the chunks. -/
def pyRange0 (n c : Nat) : List Nat :=
  List.range' 0 ((n + c - 1) / c) c

/-- The successive slices sorted_dat_models[i : i + c] taken by the
rotation-stage scheduler loop, one per iteration of range(0, n, c). -/
def run_chunks {α : Type} (l : List α) (c : Nat) : List (List α) :=
  (pyRange0 l.length c).map (fun i => (l.drop i).take c)

/-- Chunk slicing consumes the list front to back: mapping the slice
function over starts shifted by c equals slicing the dropped list. -/
theorem run_chunks_shift {α : Type} (l : List α) (c m : Nat) :
    (List.range' c m c).map (fun i => (l.drop i).take c) =
      (List.range' 0 m c).map (fun i => ((l.drop c).drop i).take c) := by
  have h := List.map_add_range' c 0 m c
  rw [Nat.add_zero] at h
  rw [← h, List.map_map]
  refine List.map_congr_left ?_
  intro i _
  simp [List.drop_drop, Nat.add_comm]

/-- Any list bounded by m * c is exactly recovered by flattening its m
slices of width c. -/
theorem run_chunks_core {α : Type} (c : Nat) :
    ∀ (m : Nat) (l : List α), l.length ≤ m * c →
      ((List.range' 0 m c).map (fun i => (l.drop i).take c)).flatten = l := by
  intro m
  induction m with
  | zero =>
    intro l hl
    simp only [Nat.zero_mul, Nat.le_zero, List.length_eq_zero] at hl
    subst hl
    simp
  | succ m ih =>
    intro l hl
    rw [Nat.succ_mul] at hl
    rw [List.range'_succ, List.map_cons, List.flatten_cons]
    simp only [Nat.zero_add, List.drop_zero]
    rw [run_chunks_shift]
    rw [ih (l.drop c) (by simp only [List.length_drop]; omega)]
    exact List.take_append_drop c l

/-- C3: for every ranked candidate list and every chunk size c >= 1, the
chunks taken by the scheduler loop (slices l[i : i + c] for i in
range(0, length l, c)) concatenate back to exactly the original list,
in order, with nothing dropped or duplicated. -/
theorem run_chunks_partition {α : Type} (l : List α) (c : Nat) (hc : 1 ≤ c) :
    (run_chunks l c).flatten = l := by
  unfold run_chunks pyRange0
  apply run_chunks_core
  rw [Nat.mul_comm]
  rcases Nat.eq_zero_or_pos l.length with h0 | hpos
  · simp [h0]
  · have hd := Nat.div_add_mod (l.length + c - 1) c
    have hm := Nat.mod_lt (l.length + c - 1) (show 0 < c by omega)
    omega

/-- C3 witness: a concrete partition with list length 5 and chunk size 2. -/
theorem run_chunks_partition_witness :
    (1 ≤ 2) ∧ (run_chunks [10, 11, 12, 13, 14] 2).flatten = [10, 11, 12, 13, 14] :=
  ⟨by decide, run_chunks_partition [10, 11, 12, 13, 14] 2 (by decide)⟩

/- ### simbad/core/amore_score.py records as constructed in
AmoreRotationSearch.run: one record per parsed rotation log, with the
fields passed to the AmoreRotationScore constructor.  Parsed metrics can
be absent in a log, hence Option. -/

structure AmoreRotationScore where
  pdb_code : String
  dat_path : String
  ALPHA : Option ℚ
  BETA : Option ℚ
  GAMMA : Option ℚ
  CC_F : Option ℚ
  RF_F : Option ℚ
  CC_I : Option ℚ
  CC_P : Option ℚ
  Icp : Option ℚ
  CC_F_Z_score : Option ℚ
  CC_P_Z_score : Option ℚ
  Number_of_rotation_searches_producing_peak : Option ℚ
  deriving Repr, DecidableEq

/-- AmoreRotationSearch.run keeps a parsed score only when the parsed
cc_f_z_score is truthy (the guard: if rotsearch result cc_f_z_score). -/
def run_collect_results (parsed : List AmoreRotationScore) : List AmoreRotationScore :=
  parsed.filter (fun s => pyTruthy s.CC_F_Z_score)

/-- The sort key float(x.CC_F_Z_score) used by the search_results
property.  Every record stored by run has a truthy (hence defined)
CC_F_Z_score, so the none default is never taken on the run pipeline. -/
def keyZ (s : AmoreRotationScore) : ℚ :=
  s.CC_F_Z_score.getD 0

/-- Boolean comparison realising sorted(key=float(CC_F_Z_score),
reverse=True): a before b when the key of b is at most the key of a. -/
def zDescLe (a b : AmoreRotationScore) : Bool :=
  keyZ b ≤ keyZ a

/-- AmoreRotationSearch.search_results: the stored records sorted by
CC_F_Z_score descending (Python sorted with reverse=True is a stable
sort, modelled by mergeSort) and truncated to max_to_keep. -/
def search_results (stored : List AmoreRotationScore) (max_to_keep : Nat) :
    List AmoreRotationScore :=
  (stored.mergeSort zDescLe).take max_to_keep

/-- The rotation-stage result pipeline: records collected by run, then
ranked by the search_results property. -/
def amore_search_results (parsed : List AmoreRotationScore) (max_to_keep : Nat) :
    List AmoreRotationScore :=
  search_results (run_collect_results parsed) max_to_keep

/-- C6: the ranked rotation results are sorted by CC_F_Z_score in
descending order, contain only records whose CC_F_Z_score was defined at
parse time, and number at most max_to_keep. -/
theorem amore_search_results_spec (parsed : List AmoreRotationScore) (max_to_keep : Nat) :
    (amore_search_results parsed max_to_keep).Pairwise (fun a b => keyZ b ≤ keyZ a) ∧
    (amore_search_results parsed max_to_keep).all
      (fun s => s.CC_F_Z_score.isSome) = true ∧
    (amore_search_results parsed max_to_keep).length ≤ max_to_keep := by
  refine ⟨?_, ?_, ?_⟩
  · have hs : ((run_collect_results parsed).mergeSort zDescLe).Pairwise
        (fun a b => zDescLe a b = true) := by
      apply List.sorted_mergeSort
      · intro a b c hab hbc
        simp only [zDescLe, decide_eq_true_eq] at *
        exact le_trans hbc hab
      · intro a b
        simp only [zDescLe]
        rcases le_total (keyZ b) (keyZ a) with h | h <;> simp [h]
    have hsub : List.Sublist (amore_search_results parsed max_to_keep)
        ((run_collect_results parsed).mergeSort zDescLe) :=
      List.take_sublist _ _
    exact (hs.sublist hsub).imp (fun h => by
      simpa only [zDescLe, decide_eq_true_eq] using h)
  · rw [List.all_eq_true]
    intro s hs
    have hmem : s ∈ (run_collect_results parsed).mergeSort zDescLe :=
      (List.take_sublist _ _).mem hs
    rw [List.mem_mergeSort] at hmem
    have := List.of_mem_filter hmem
    simp only [pyTruthy] at this
    cases h : s.CC_F_Z_score with
    | none => rw [h] at this; exact absurd this (by simp)
    | some q => simp
  · exact List.length_take_le max_to_keep
      ((run_collect_results parsed).mergeSort zDescLe)


/- ### simbad/util/simbad_util.py : molecular_weight -/

/-- Names visible inside molecular_weight at the point where the
not-found branch builds its message: the locals bound earlier in the
body (the parameter is named model, not logfile) and the module-level
globals of simbad_util.  No binding of the name logfile exists. -/
def molecular_weight_scope : List String :=
  ["model", "cmd", "stdout", "molecular_weight", "line",
   "logging", "os", "tempfile", "mbkit", "logger",
   "filename_append", "tmp_file_name"]

/-- Python name resolution: evaluating an unbound name raises NameError. -/
def pyLookupName (scope : List String) (n : String) : Except PyError Unit :=
  if scope.contains n then Except.ok () else Except.error (PyError.nameError n)

/-- simbad.util.simbad_util.molecular_weight on the captured rwcontents
standard output, split into lines.  The numeric parse of the final field
of a matching line is abstracted as parse_last_field.  When no line
matches, the code evaluates a format call whose argument is the name
logfile; that name is unbound in the function, so Python raises
NameError there, before the RuntimeError raise can run. -/
def molecular_weight (stdout_lines : List String) (parse_last_field : String → ℚ) :
    Except PyError ℚ :=
  let mw : Option ℚ := stdout_lines.foldl
    (fun acc line =>
      if line.startsWith (" Molecular Weight of protein") then some (parse_last_field line)
      else acc)
    none
  match mw with
  | some w => Except.ok w
  | none =>
    match pyLookupName molecular_weight_scope ("logfile") with
    | Except.ok _ =>
      Except.error (PyError.runtimeError ("Cannot find Molecular weight in logfile"))
    | Except.error e => Except.error e

/-- The fold of molecular_weight stays none when no line matches. -/
theorem molecular_weight_fold_none (parse_last_field : String → ℚ) :
    ∀ (lines : List String),
      (∀ l ∈ lines, l.startsWith (" Molecular Weight of protein") = false) →
      lines.foldl
        (fun acc line =>
          if line.startsWith (" Molecular Weight of protein") then some (parse_last_field line)
          else acc)
        (none : Option ℚ) = none := by
  intro lines
  induction lines with
  | nil => intro _; rfl
  | cons l ls ih =>
    intro h
    have hl := h l (List.mem_cons_self l ls)
    simp only [List.foldl_cons, hl, Bool.false_eq_true, if_false]
    exact ih (fun x hx => h x (List.mem_cons_of_mem l hx))

/-- C9: when no output line starts with the molecular-weight marker,
molecular_weight raises NameError for the unbound name logfile; it never
returns normally and never reaches the intended RuntimeError. -/
theorem molecular_weight_name_error (stdout_lines : List String)
    (parse_last_field : String → ℚ)
    (h : ∀ l ∈ stdout_lines, l.startsWith (" Molecular Weight of protein") = false) :
    molecular_weight stdout_lines parse_last_field =
      Except.error (PyError.nameError ("logfile")) := by
  unfold molecular_weight
  rw [molecular_weight_fold_none parse_last_field stdout_lines h]
  rfl

set_option maxRecDepth 10000 in
/-- C9 witness: a concrete rwcontents output with no matching line. -/
theorem molecular_weight_name_error_witness :
    molecular_weight ["stuff", " Number of amino acids: 3"] (fun _ => 0) =
      Except.error (PyError.nameError ("logfile")) :=
  molecular_weight_name_error _ _ (by decide)

/- ### simbad/mr/options.py and the MrSubmit configuration setters -/

/-- Modelled from the spec: simbad/mr/options.py (the MrPrograms enum)
is not under src/.  Its member names and module values are taken from
the trial-engine names the spec and the code use: the code branches on
the stored program being molrep or phaser, and mr_python_module reads
MrPrograms[name].value. -/
def MrProgramsMembers : List (String × String) :=
  [("molrep", "simbad.mr.molrep_mr"), ("phaser", "simbad.mr.phaser_mr")]

/-- Modelled from the spec: simbad/mr/options.py (the RefPrograms enum)
is not under src/.  Its single member name is taken from the refinement
engine the code uses: generate_script compares the stored program with
refmac5 and rot_succeeded_log constructs MrSubmit with refmac5. -/
def RefProgramsMembers : List (String × String) :=
  [("refmac5", "simbad.mr.refmac_refine")]

/-- Python str.lower on the ASCII program names handled here: lowercase
every character of the string. -/
def pyLower (s : String) : String :=
  ⟨s.data.map Char.toLower⟩

/-- Python Enum class subscription Programs[name]: the value of the
member called name, or KeyError when no member has that name. -/
def enumLookup (members : List (String × String)) (name : String) : Except PyError String :=
  match members.find? (fun m => m.1 == name) with
  | some m => Except.ok m.2
  | none => Except.error (PyError.keyError name)

/-- The MrSubmit.mr_program setter: accept when the lowercased input is
a member name of MrPrograms and store the lowercased input, otherwise
raise RuntimeError.  Python str.lower is modelled by pyLower. -/
def set_mr_program (members : List (String × String)) (mr_program : String) :
    Except PyError String :=
  if (members.map Prod.fst).contains (pyLower mr_program) then Except.ok (pyLower mr_program)
  else Except.error (PyError.runtimeError ("Unknown MR program!"))

/-- The MrSubmit.refine_program setter: accept when the lowercased input
is a member name of RefPrograms, but store the input string unchanged,
otherwise raise RuntimeError. -/
def set_refine_program (members : List (String × String)) (refine_program : String) :
    Except PyError String :=
  if (members.map Prod.fst).contains (pyLower refine_program) then Except.ok refine_program
  else Except.error (PyError.runtimeError ("Unknown Refinement program!"))

/-- MrSubmit.refine_python_module: RefPrograms[stored refine_program].value. -/
def refine_python_module (members : List (String × String)) (stored : String) :
    Except PyError String :=
  enumLookup members stored

/-- A string containing at least one ASCII uppercase letter. -/
def hasUpper (s : String) : Bool :=
  s.data.any Char.isUpper

/-- Every member name of the enum is free of uppercase letters. -/
def allLowerNames (members : List (String × String)) : Bool :=
  (members.map Prod.fst).all (fun n => !hasUpper n)

/-- C10: the mr_program setter stores the lowercased input; the
refine_program setter stores the input unchanged; and whenever the enum
member names are all lowercase, an accepted refine_program input that
contains an uppercase letter is stored as a non-member, so the
refine_python_module lookup raises KeyError even though construction
succeeded. -/
theorem refine_program_case_mismatch :
    (∀ (members : List (String × String)) (t u : String),
      set_mr_program members t = Except.ok u → u = pyLower t) ∧
    (∀ (members : List (String × String)) (s stored : String),
      set_refine_program members s = Except.ok stored → stored = s) ∧
    (∀ (members : List (String × String)) (s stored : String),
      allLowerNames members = true →
      hasUpper s = true →
      set_refine_program members s = Except.ok stored →
      (members.map Prod.fst).contains stored = false ∧
      refine_python_module members stored = Except.error (PyError.keyError stored)) := by
  refine ⟨?_, ?_, ?_⟩
  · intro members t u h
    unfold set_mr_program at h
    split at h
    · exact ((Except.ok.injEq _ _).mp h).symm
    · exact Except.noConfusion h
  · intro members s stored h
    unfold set_refine_program at h
    split at h
    · exact ((Except.ok.injEq _ _).mp h).symm
    · exact Except.noConfusion h
  · intro members s stored hlow hup hacc
    have hs : stored = s := by
      unfold set_refine_program at hacc
      split at hacc
      · exact ((Except.ok.injEq _ _).mp hacc).symm
      · exact Except.noConfusion hacc
    subst hs
    have hnotin : stored ∉ members.map Prod.fst := by
      intro hmem
      rw [allLowerNames, List.all_eq_true] at hlow
      have := hlow stored hmem
      rw [hup] at this
      simp at this
    have hnotmem : (members.map Prod.fst).contains stored = false := by
      rw [List.contains_eq_any_beq, List.any_eq_false]
      intro n hn hbeq
      exact hnotin ((eq_of_beq hbeq) ▸ hn)
    refine ⟨hnotmem, ?_⟩
    unfold refine_python_module enumLookup
    have hfind : (members.find? (fun m => m.1 == stored)) = none := by
      rw [List.find?_eq_none]
      intro m hm hbeq
      exact hnotin ((eq_of_beq hbeq) ▸ List.mem_map_of_mem Prod.fst hm)
    rw [hfind]

set_option maxRecDepth 10000 in
/-- C10 witness: with the modelled RefPrograms enum, the accepted input
Refmac5 is stored unchanged, is not a member name, and its module
lookup raises KeyError. -/
theorem refine_program_case_mismatch_witness :
    (RefProgramsMembers.map Prod.fst).contains ("Refmac5") = false ∧
    refine_python_module RefProgramsMembers ("Refmac5") =
      Except.error (PyError.keyError ("Refmac5")) :=
  refine_program_case_mismatch.2.2 RefProgramsMembers ("Refmac5") ("Refmac5")
    (by decide) (by decide) (by rfl)

/- ### simbad/core/mr_score.py records as produced by
MrSubmit.submit_jobs and MrSubmit.existing_solution.  MrScore is
constructed with only the pdb_code; metric attributes are attached
afterwards depending on which trial engine ran, so unset metrics are
none. -/

structure MrScore where
  pdb_code : String
  molrep_score : Option ℚ := none
  molrep_tfscore : Option ℚ := none
  phaser_tfz : Option ℚ := none
  phaser_llg : Option ℚ := none
  phaser_rfz : Option ℚ := none
  final_r_fact : Option ℚ := none
  final_r_free : Option ℚ := none
  dano_peak_height : Option ℚ := none
  nearest_atom : Option String := none
  deriving Repr, DecidableEq

/-- The per-candidate inputs the submit_jobs scoring loop reads from the
produced log files: the molrep metrics parsed when the engine is molrep,
the phaser metrics parsed when the engine is phaser, the refinement
metrics, and the optional anomalous-map result. -/
structure MrCandidateLogs where
  pdb_code : String
  molrep_score : ℚ
  molrep_tfscore : ℚ
  phaser_tfz : ℚ
  phaser_llg : ℚ
  phaser_rfz : ℚ
  final_r_fact : ℚ
  final_r_free : ℚ
  anomalous : Option (ℚ × String)
  deriving Repr, DecidableEq

/-- The body of the submit_jobs scoring loop for one candidate whose
three output files exist: build MrScore(pdb_code), attach the molrep
metrics when mr_program is molrep, else attach the phaser metrics when
mr_program is phaser, attach the anomalous metrics when anomalous data
is present and the anomalous search succeeded, then attach the
refinement metrics from the refmac log. -/
def score_candidate (mr_program : String) (d : MrCandidateLogs) : MrScore :=
  let score : MrScore := { pdb_code := d.pdb_code }
  let score :=
    if mr_program = "molrep" then
      { score with molrep_score := some d.molrep_score,
                   molrep_tfscore := some d.molrep_tfscore }
    else if mr_program = "phaser" then
      { score with phaser_tfz := some d.phaser_tfz,
                   phaser_llg := some d.phaser_llg,
                   phaser_rfz := some d.phaser_rfz }
    else score
  let score :=
    match d.anomalous with
    | some a => { score with dano_peak_height := some a.1, nearest_atom := some a.2 }
    | none => score
  { score with final_r_fact := some d.final_r_fact,
               final_r_free := some d.final_r_free }

/-- MrSubmit.submit_jobs result collection over the candidates whose
output files exist: one score per candidate via the scoring loop body. -/
def submit_jobs_results (mr_program : String) (ds : List MrCandidateLogs) : List MrScore :=
  ds.map (score_candidate mr_program)

/-- MrSubmit.existing_solution builds its single score the same way,
minus the anomalous branch. -/
def existing_solution_score (mr_program : String) (d : MrCandidateLogs) : MrScore :=
  let score : MrScore := { pdb_code := d.pdb_code }
  let score :=
    if mr_program = "molrep" then
      { score with molrep_score := some d.molrep_score,
                   molrep_tfscore := some d.molrep_tfscore }
    else if mr_program = "phaser" then
      { score with phaser_tfz := some d.phaser_tfz,
                   phaser_llg := some d.phaser_llg,
                   phaser_rfz := some d.phaser_rfz }
    else score
  { score with final_r_fact := some d.final_r_fact,
               final_r_free := some d.final_r_free }

/-- The molrep placement-metric set is fully populated. -/
def molrepPopulated (s : MrScore) : Bool :=
  s.molrep_score.isSome && s.molrep_tfscore.isSome

/-- The phaser placement-metric set is fully populated. -/
def phaserPopulated (s : MrScore) : Bool :=
  s.phaser_tfz.isSome && s.phaser_llg.isSome && s.phaser_rfz.isSome

/-- The stored mr_program of a validated MrSubmit is a MrPrograms member
name, so it is molrep or phaser. -/
theorem set_mr_program_member (p v : String)
    (h : set_mr_program MrProgramsMembers p = Except.ok v) :
    v = "molrep" ∨ v = "phaser" := by
  unfold set_mr_program at h
  split at h
  next hc =>
    have hv : v = pyLower p := ((Except.ok.injEq _ _).mp h).symm
    subst hv
    simpa [MrProgramsMembers, List.contains_eq_any_beq] using hc
  next => exact Except.noConfusion h

/-- C5: for a MrSubmit whose mr_program passed the setter validation,
every record produced by the submit_jobs scoring loop, and the record
produced by existing_solution, has at least one placement-metric set
populated and never both. -/
theorem mr_score_metric_sets_exclusive (p v : String)
    (hacc : set_mr_program MrProgramsMembers p = Except.ok v)
    (ds : List MrCandidateLogs) (d : MrCandidateLogs) :
    (∀ s ∈ submit_jobs_results v ds,
      (molrepPopulated s || phaserPopulated s) = true ∧
      (molrepPopulated s && phaserPopulated s) = false) ∧
    ((molrepPopulated (existing_solution_score v d) ||
        phaserPopulated (existing_solution_score v d)) = true ∧
      (molrepPopulated (existing_solution_score v d) &&
        phaserPopulated (existing_solution_score v d)) = false) := by
  have hv := set_mr_program_member p v hacc
  constructor
  · intro s hs
    rw [submit_jobs_results, List.mem_map] at hs
    obtain ⟨c, _, hc⟩ := hs
    subst hc
    rcases hv with hv | hv <;> subst hv <;>
      rcases hano : c.anomalous with _ | a <;>
        simp [score_candidate, hano, molrepPopulated, phaserPopulated]
  · rcases hv with hv | hv <;> subst hv <;>
      simp [existing_solution_score, molrepPopulated, phaserPopulated]

/-- C5 witness: a concrete molrep run over one candidate. -/
theorem mr_score_metric_sets_exclusive_witness :
    (molrepPopulated (existing_solution_score ("molrep")
        ⟨"1dtx", 3, 5, 0, 0, 0, 2/10, 3/10, none⟩) ||
      phaserPopulated (existing_solution_score ("molrep")
        ⟨"1dtx", 3, 5, 0, 0, 0, 2/10, 3/10, none⟩)) = true ∧
    (molrepPopulated (existing_solution_score ("molrep")
        ⟨"1dtx", 3, 5, 0, 0, 0, 2/10, 3/10, none⟩) &&
      phaserPopulated (existing_solution_score ("molrep")
        ⟨"1dtx", 3, 5, 0, 0, 0, 2/10, 3/10, none⟩)) = false :=
  (mr_score_metric_sets_exclusive ("MOLREP") ("molrep") (by rfl)
    [] ⟨"1dtx", 3, 5, 0, 0, 0, 2/10, 3/10, none⟩).2

/- ### simbad/rotsearch/amore_search.py : the run loop as a state
machine.  The mutable state the loop reads and writes is the solution
flag and the tested list; rot_succeeded_log is the per-trial success
callback invoked by submit_chunk while a dispatched chunk executes, and
a callback returning True cancels the remaining trials of the chunk. -/

/-- The values rot_succeeded_log reads for one completed trial: the
candidate code parsed from the log name, the parsed cc_f_z_score, the
refmac refinement metrics when the refmac log file exists, and the
phaser metrics when the mr log file exists. -/
structure RotTrialLog where
  pdb : String
  cc_f_z_score : ℚ
  refmac : Option (ℚ × ℚ)
  mr_log : Option (ℚ × ℚ)
  deriving Repr, DecidableEq

/-- The mutable attributes of AmoreRotationSearch that
rot_succeeded_log touches. -/
structure RotSearchState where
  solution : Bool
  tested : List String
  deriving Repr, DecidableEq

/-- AmoreRotationSearch.rot_succeeded_log for one trial: returns False
immediately under skip_mr or process_all; otherwise, when the parsed
Z-score passes _rot_job_succeeded and the candidate is untested, the
candidate is marked tested, a molecular-replacement run is made, and the
solution flag is set with True returned when refinement succeeded (or,
for the phaser engine, when the phaser placement succeeded). -/
def rot_succeeded_log (skip_mr process_all : Bool) (mr_program : String)
    (st : RotSearchState) (t : RotTrialLog) : RotSearchState × Bool :=
  if skip_mr || process_all then (st, false)
  else if _rot_job_succeeded t.cc_f_z_score && !(st.tested.contains t.pdb) then
    let st1 : RotSearchState := { st with tested := st.tested ++ [t.pdb] }
    let refOk :=
      match t.refmac with
      | some r => _refinement_succeeded r.1 r.2
      | none => false
    if refOk then ({ st1 with solution := true }, true)
    else
      let phOk :=
        match t.mr_log with
        | some m => mr_program == "phaser" && _phaser_succeeded m.1 m.2
        | none => false
      if phOk then ({ st1 with solution := true }, true)
      else (st1, false)
  else (st, false)

/-- submit_chunk runs the success callback per completed trial of the
dispatched chunk; a True return cancels the remaining trials. -/
def submit_chunk_callbacks (skip_mr process_all : Bool) (mr_program : String) :
    RotSearchState → List RotTrialLog → RotSearchState
  | st, [] => st
  | st, t :: rest =>
    let r := rot_succeeded_log skip_mr process_all mr_program st t
    if r.2 then r.1 else submit_chunk_callbacks skip_mr process_all mr_program r.1 rest

/-- The state of the run loop across chunk cycles: the callback state
plus the record of which cycles actually generated scripts and
submitted a chunk. -/
structure RotRunState where
  solution : Bool
  tested : List String
  dispatched : List Nat
  deriving Repr, DecidableEq

/-- One iteration of the run loop over a chunk cycle: when the solution
flag is already set the iteration only logs and continues, dispatching
nothing; otherwise it generates the scripts, submits the chunk and runs
the per-trial callbacks. -/
def run_cycle (skip_mr process_all : Bool) (mr_program : String)
    (s : RotRunState) (cycle : Nat × List RotTrialLog) : RotRunState :=
  if s.solution then s
  else
    let st := submit_chunk_callbacks skip_mr process_all mr_program
      ⟨s.solution, s.tested⟩ cycle.2
    { solution := st.solution, tested := st.tested,
      dispatched := s.dispatched ++ [cycle.1] }

/-- The run loop of AmoreRotationSearch.run over the chunk cycles, with
the trial outcomes of each cycle given as an oracle. -/
def rot_run (skip_mr process_all : Bool) (mr_program : String)
    (chunks : List (Nat × List RotTrialLog)) : RotRunState :=
  chunks.foldl (run_cycle skip_mr process_all mr_program) ⟨false, [], []⟩

/-- A loop iteration entered with the solution flag set changes nothing:
no script generation, no submission, no state update. -/
theorem run_cycle_skips_after_solution (skip_mr process_all : Bool) (mr_program : String)
    (s : RotRunState) (cycle : Nat × List RotTrialLog) (h : s.solution = true) :
    run_cycle skip_mr process_all mr_program s cycle = s := by
  unfold run_cycle
  rw [if_pos h]

/-- Folding further cycles from a solved state leaves the state fixed. -/
theorem rot_run_fold_fixed (skip_mr process_all : Bool) (mr_program : String) :
    ∀ (l : List (Nat × List RotTrialLog)) (s : RotRunState), s.solution = true →
      l.foldl (run_cycle skip_mr process_all mr_program) s = s := by
  intro l
  induction l with
  | nil => intro s _; rfl
  | cons c cs ih =>
    intro s h
    rw [List.foldl_cons, run_cycle_skips_after_solution skip_mr process_all mr_program s c h]
    exact ih s h

/-- C2: once the solution flag is set during some prefix of the chunk
cycles, the rest of the loop dispatches nothing: every remaining
iteration leaves the state untouched, and the final state (in
particular the set of dispatched chunks) is exactly the state reached
at the end of the prefix. -/
theorem rot_run_early_termination (skip_mr process_all : Bool) (mr_program : String)
    (l₁ l₂ : List (Nat × List RotTrialLog))
    (h : (rot_run skip_mr process_all mr_program l₁).solution = true) :
    rot_run skip_mr process_all mr_program (l₁ ++ l₂) =
      rot_run skip_mr process_all mr_program l₁ ∧
    (∀ cycle ∈ l₂, run_cycle skip_mr process_all mr_program
      (rot_run skip_mr process_all mr_program l₁) cycle =
        rot_run skip_mr process_all mr_program l₁) := by
  constructor
  · rw [rot_run, List.foldl_append]
    exact rot_run_fold_fixed skip_mr process_all mr_program l₂ _ h
  · intro cycle _
    exact run_cycle_skips_after_solution skip_mr process_all mr_program _ cycle h

/-- C2 witness: a chunk whose single trial has Z-score 11 and a refmac
log with both R-factors at 0.2 sets the solution flag, and a following
chunk is then not dispatched. -/
theorem rot_run_early_termination_witness :
    rot_run false false ("molrep")
        [(0, [⟨"1dtx", 11, some (2/10, 3/10), none⟩]), (1, [⟨"2xyz", 12, none, none⟩])] =
      rot_run false false ("molrep") [(0, [⟨"1dtx", 11, some (2/10, 3/10), none⟩])] :=
  (rot_run_early_termination false false ("molrep")
    [(0, [⟨"1dtx", 11, some (2/10, 3/10), none⟩])]
    [(1, [⟨"2xyz", 12, none, none⟩])]
    (by norm_num [rot_run, run_cycle, submit_chunk_callbacks, rot_succeeded_log,
      _rot_job_succeeded, _refinement_succeeded])).1

/- ### Per-trial command sequences.  AmoreRotationSearch.generate_script
and MrSubmit.generate_script assemble the command list of one trial
script; Script.append later joins each inner list with spaces.  The
module constants are modelled for POSIX (os.name is not nt): the
environment-assignment keyword is export and the call marker is the
empty string. -/

/-- The EXPORT module constant on POSIX. -/
def EXPORT : String := "export"

/-- The call-marker module constant on POSIX (empty; it is SET plus
call only on Windows). -/
def cmdCall : String := ""

/-- String append is left-cancellative. -/
theorem str_append_left_cancel (s : String) {t u : String} (h : s ++ t = s ++ u) :
    t = u := by
  apply String.ext
  have hd := congrArg String.data h
  rw [String.data_append, String.data_append] at hd
  exact List.append_cancel_left hd

/-- The fields of a DatModelScore that generate_script reads.  The
integration-box values are carried as the strings that str.format
interpolates into the stdin template. -/
structure DatModelScore where
  pdb_code : String
  dat_path : String
  x : String
  y : String
  z : String
  intrad : String
  deriving Repr, DecidableEq

/-- The attributes of AmoreRotationSearch that generate_script reads:
the sourcing line returned by simbad.util.source_ccp4 (that module is
an external input here), the executable and data paths, the original
CCP4_SCR value captured by run, the scratch root (tmp_dir when set,
else work_dir/tmp), the per-run directory name simbad-tmp-<uuid>, and
the numeric options as the strings str.format interpolates. -/
structure AmoreScriptConfig where
  source : String
  amore_exe : String
  hklpck0 : String
  ccp4_scr : String
  tmp_root : String
  dir_name : String
  shres : String
  pklim : String
  npic : String
  rotastep : String
  deriving Repr, DecidableEq

/-- The per-candidate scratch directory of an AMORE trial:
template_tmp_dir is os.path.join(root, dir_name + "-{0}") and the
candidate code is substituted for {0}.  Joining then formatting equals
formatting then joining here, because the second component begins with
dir_name plus a dash for every candidate code. -/
def amore_tmp_dir (tmp_root dir_name code : String) : String :=
  pathJoin tmp_root (dir_name ++ "-" ++ code)

/-- template_model: os.path.join of the scratch variable and code.pdb,
after format substitution. -/
def template_model (code : String) : String := "$CCP4_SCR/" ++ code ++ ".pdb"

/-- template_table1 after format substitution. -/
def template_table1 (code : String) : String := "$CCP4_SCR/" ++ code ++ "_sfs.tab"

/-- template_hklpck1 after format substitution. -/
def template_hklpck1 (code : String) : String := "$CCP4_SCR/" ++ code ++ ".hkl"

/-- template_clmn0 after format substitution. -/
def template_clmn0 (code : String) : String := "$CCP4_SCR/" ++ code ++ "_spmipch.clmn"

/-- template_clmn1 after format substitution. -/
def template_clmn1 (code : String) : String := "$CCP4_SCR/" ++ code ++ ".clmn"

/-- template_mapout after format substitution. -/
def template_mapout (code : String) : String := "$CCP4_SCR/" ++ code ++ "_amore_cross.map"

/-- template_rot_log after format substitution. -/
def template_rot_log (code : String) : String := "$CCP4_SCR/" ++ code ++ "_rot.log"

/-- tabfun_stdin_template with x, y, z and the literal cell angles
90 90 120 substituted. -/
def tabfun_stdin (x y z : String) : String :=
  "TITLE: Produce table for MODEL FRAGMENT\nTABFUN\nCRYSTAL " ++ x ++ " " ++ y ++
    " " ++ z ++ " 90 90 120 ORTH 1\nMODEL 1 BTARGET 23.5\nSAMPLE 1 RESO 2.5 SHANN 2.5 SCALE 4.0"

/-- rotfun_stdin_template with shres, intrad, pklim, npic and step
substituted. -/
def rotfun_stdin (shres intrad pklim npic step : String) : String :=
  "TITLE: Generate HKLPCK1 from MODEL FRAGMENT 1\nROTFUN\nGENE 1   RESO 100.0 " ++
    shres ++ "  CELL_MODEL 80 75 65\nCLMN CRYSTAL ORTH  1 RESO  20.0  " ++ shres ++
    "  SPHERE   " ++ intrad ++ "\nCLMN MODEL 1     RESO  20.0  " ++ shres ++
    " SPHERE   " ++ intrad ++ "\nROTA  CROSS  MODEL 1  PKLIM " ++ pklim ++
    "  NPIC " ++ npic ++ " STEP " ++ step

/-- AmoreRotationSearch.generate_script: the assembled cmd list of one
trial.  The python-in-quotes conversion snippet quotes its two paths
with single-quote characters, built here with Char.ofNat 39. -/
def amore_generate_script_cmd (cfg : AmoreScriptConfig) (dat : DatModelScore) :
    List (List String) :=
  let pdb_model := template_model dat.pdb_code
  let table1 := template_table1 dat.pdb_code
  let hklpck1 := template_hklpck1 dat.pdb_code
  let clmn0 := template_clmn0 dat.pdb_code
  let clmn1 := template_clmn1 dat.pdb_code
  let mapout := template_mapout dat.pdb_code
  let sq := String.singleton (Char.ofNat 39)
  let conv_py := "\"from simbad.db import convert_dat_to_pdb; convert_dat_to_pdb(" ++
    sq ++ dat.dat_path ++ sq ++ ", " ++ sq ++ pdb_model ++ sq ++ ")\""
  let tab_cmd := [cfg.amore_exe, "xyzin1", pdb_model, "xyzout1", pdb_model, "table1", table1]
  let tab_stdin := tabfun_stdin dat.x dat.y dat.z
  let rot_cmd := [cfg.amore_exe, "table1", table1, "HKLPCK1", hklpck1, "hklpck0",
    cfg.hklpck0, "clmn1", clmn1, "clmn0", clmn0, "MAPOUT", mapout]
  let rot_stdin := rotfun_stdin cfg.shres dat.intrad cfg.pklim cfg.npic cfg.rotastep
  let rot_log := template_rot_log dat.pdb_code
  let tmp_dir := amore_tmp_dir cfg.tmp_root cfg.dir_name dat.pdb_code
  [ [cfg.source],
    [EXPORT, "CCP4_SCR=" ++ tmp_dir],
    ["mkdir", "-p", "$CCP4_SCR\n"],
    [cmdCall, "$CCP4/bin/ccp4-python", "-c", conv_py, "\n"],
    tab_cmd ++ ["<< eof >", "/dev/null"],
    [tab_stdin],
    ["eof"],
    ["\n"],
    rot_cmd ++ ["<< eof >", rot_log],
    [rot_stdin],
    ["eof"],
    ["\n"],
    ["grep", "-m 1", "SOLUTIONRCD", rot_log, "\n"],
    ["rm", "-rf", "$CCP4_SCR\n"],
    [EXPORT, "CCP4_SCR=" ++ cfg.ccp4_scr] ]

/-- The per-candidate scratch directory is distinct for distinct
candidate codes in the same run (same root and run directory name). -/
theorem amore_tmp_dir_inj (tmp_root dir_name c₁ c₂ : String)
    (h : amore_tmp_dir tmp_root dir_name c₁ = amore_tmp_dir tmp_root dir_name c₂) :
    c₁ = c₂ := by
  have hhead : ∀ c : String,
      ((dir_name ++ "-" ++ c).data.head? : Option Char) =
        (dir_name.data ++ [Char.ofNat 45]).head? := by
    intro c
    rw [String.data_append, String.data_append]
    rw [List.append_assoc, List.head?_append, List.head?_append]
    cases dir_name.data with
    | nil => rfl
    | cons ch rest => rfl
  unfold amore_tmp_dir pathJoin at h
  rw [hhead c₁, hhead c₂] at h
  by_cases h1 : ((dir_name.data ++ [Char.ofNat 45]).head? = some ('/'))
  · rw [if_pos h1, if_pos h1] at h
    exact str_append_left_cancel (dir_name ++ "-") h
  · rw [if_neg h1, if_neg h1] at h
    by_cases h2 : tmp_root = ""
    · rw [if_pos h2, if_pos h2] at h
      exact str_append_left_cancel (dir_name ++ "-") h
    · rw [if_neg h2, if_neg h2] at h
      by_cases h3 : (tmp_root.data.getLast? = some ('/'))
      · rw [if_pos h3, if_pos h3] at h
        exact str_append_left_cancel (dir_name ++ "-")
          (str_append_left_cancel tmp_root h)
      · rw [if_neg h3, if_neg h3] at h
        exact str_append_left_cancel (dir_name ++ "-")
          (str_append_left_cancel (tmp_root ++ "/") h)

/-- The attributes of MrSubmit that generate_script reads, plus the
values it computes before assembling the command list.  String-valued
fields carry the str() form that the final space-join would produce;
tmp_dir is optional because the attribute can be None, and a falsy
tmp_dir (None or empty) selects the output directory. -/
structure MrScriptData where
  source : String
  ccp4_scr : String
  tmp_dir : Option String
  output_dir : String
  mr_program : String
  mr_python_module : String
  refine_program : String
  refine_python_module : String
  refine_type : String
  refine_cycles : String
  mtz : String
  sgalternative : String
  space_group : String
  mtz_labels_i : String
  mtz_labels_sigi : String
  mtz_labels_f : String
  mtz_labels_sigf : String
  solvent_content : String
  timeout : String
  n_copies : String
  is_lattice_result : Bool
  deriving Repr, DecidableEq

/-- The scratch directory an MrSubmit trial script redirects CCP4_SCR
to: os.path.join of the single argument self.tmp_dir when that is
truthy, else of self.output_dir.  A one-argument join returns its
argument, and the value does not depend on the candidate. -/
def mr_scr_dir (tmp_dir : Option String) (output_dir : String) : String :=
  match tmp_dir with
  | some t => if t = "" then output_dir else t
  | none => output_dir

/-- mr_workdir of one candidate: output_dir/pdb_code/mr/mr_program. -/
def mr_workdir (cfg : MrScriptData) (code : String) : String :=
  pathJoin (pathJoin (pathJoin cfg.output_dir code) ("mr")) cfg.mr_program

/-- The MR log file path of one candidate. -/
def mr_logfile (cfg : MrScriptData) (code : String) : String :=
  pathJoin (mr_workdir cfg code) (code ++ "_mr.log")

/-- The MR output coordinates path of one candidate. -/
def mr_pdbout (cfg : MrScriptData) (code : String) : String :=
  pathJoin (mr_workdir cfg code) (code ++ "_mr_output.pdb")

/-- The MR output reflections path of one candidate. -/
def mr_hklout (cfg : MrScriptData) (code : String) : String :=
  pathJoin (mr_workdir cfg code) (code ++ "_mr_output.mtz")

/-- The refinement working directory of one candidate. -/
def ref_workdir (cfg : MrScriptData) (code : String) : String :=
  pathJoin (mr_workdir cfg code) ("refine")

/-- The refinement output reflections path of one candidate. -/
def ref_hklout (cfg : MrScriptData) (code : String) : String :=
  pathJoin (ref_workdir cfg code) (code ++ "_refinement_output.mtz")

/-- The refinement log path of one candidate. -/
def ref_logfile (cfg : MrScriptData) (code : String) : String :=
  pathJoin (ref_workdir cfg code) (code ++ "_ref.log")

/-- The refinement output coordinates path of one candidate. -/
def ref_pdbout (cfg : MrScriptData) (code : String) : String :=
  pathJoin (ref_workdir cfg code) (code ++ "_refinement_output.pdb")

/-- The first difference-map output path of one candidate. -/
def diff_mapout1 (cfg : MrScriptData) (code : String) : String :=
  pathJoin (ref_workdir cfg code) (code ++ "_refmac_2fofcwt.map")

/-- The second difference-map output path of one candidate. -/
def diff_mapout2 (cfg : MrScriptData) (code : String) : String :=
  pathJoin (ref_workdir cfg code) (code ++ "_refmac_fofcwt.map")

/-- The MR engine invocation assembled by generate_script; mr_pdbin is
the input-coordinates path chosen by the result-type branch. -/
def mr_cmd (cfg : MrScriptData) (code mr_pdbin : String) : List String :=
  [cmdCall, "ccp4-python", "-m", cfg.mr_python_module, "-hklin", cfg.mtz,
    "-hklout", mr_hklout cfg code, "-pdbin", mr_pdbin, "-pdbout", mr_pdbout cfg code,
    "-logfile", mr_logfile cfg code, "-work_dir", mr_workdir cfg code,
    "-nmol", cfg.n_copies, "-sgalternative", cfg.sgalternative] ++
  (if cfg.mr_program == "molrep" then ["-space_group", cfg.space_group]
   else if cfg.mr_program == "phaser" then
     ["-i", cfg.mtz_labels_i, "-sigi", cfg.mtz_labels_sigi,
      "-f", cfg.mtz_labels_f, "-sigf", cfg.mtz_labels_sigf,
      "-solvent", cfg.solvent_content, "-timeout", cfg.timeout] ++
     (if cfg.is_lattice_result then ["-autohigh", "4.0", "-hires", "5.0"] else [])
   else [])

/-- The refinement invocation assembled by generate_script. -/
def ref_cmd (cfg : MrScriptData) (code : String) : List String :=
  [cmdCall, "ccp4-python", "-m", cfg.refine_python_module, "-pdbin", mr_pdbout cfg code,
    "-pdbout", ref_pdbout cfg code, "-hklin", mr_hklout cfg code,
    "-hklout", ref_hklout cfg code, "-logfile", ref_logfile cfg code,
    "-work_dir", ref_workdir cfg code, "-ncyc", cfg.refine_cycles] ++
  (if cfg.refine_program == "refmac5" then ["-refinement_type", cfg.refine_type] else [])

/-- MrSubmit.fft: the command part for one difference map. -/
def fft_cmd (hklin mapout : String) : List String :=
  [cmdCall, "fft", "hklin", hklin, "mapout", mapout]

/-- MrSubmit.generate_script: the assembled cmd list of one trial.
run_stdin_1 and run_stdin_2 are the temporary stdin file paths created
just before assembly. -/
def mr_generate_script_cmd (cfg : MrScriptData) (code mr_pdbin run_stdin_1 run_stdin_2 : String) :
    List (List String) :=
  [ [cfg.source],
    [EXPORT, "CCP4_SCR=" ++ mr_scr_dir cfg.tmp_dir cfg.output_dir],
    mr_cmd cfg code mr_pdbin ++ ["\n"],
    ref_cmd cfg code ++ ["\n"],
    fft_cmd (ref_hklout cfg code) (diff_mapout1 cfg code) ++ ["<", run_stdin_1, "\n"],
    fft_cmd (ref_hklout cfg code) (diff_mapout2 cfg code) ++ ["<", run_stdin_2, "\n"],
    [EXPORT, "CCP4_SCR=" ++ cfg.ccp4_scr] ]

/-- C1 counterexample: in MrSubmit.generate_script the scratch
directory is not per-candidate.  With a concrete configuration whose
tmp_dir is /tmp/scratch, the scripts of two distinct candidates both
set CCP4_SCR to the same directory /tmp/scratch. -/
theorem mr_script_scr_shared_counterexample :
    (("1dtx" : String) ≠ "2xyz") ∧
    (mr_generate_script_cmd
        ⟨"source /ccp4/setup.sh", "/orig/scr", some ("/tmp/scratch"), "/out/mr_search",
          "molrep", "simbad.mr.molrep_mr", "refmac5", "simbad.mr.refmac_refine",
          "None", "30", "/data/in.mtz", "none", "P212121", "I", "SIGI", "FP", "SIGFP",
          "48.2", "30", "1", false⟩
        ("1dtx") ("/out/mr_search/1dtx.pdb") ("/out/s1.stdin") ("/out/s2.stdin"))[1]? =
      some [EXPORT, "CCP4_SCR=" ++ "/tmp/scratch"] ∧
    (mr_generate_script_cmd
        ⟨"source /ccp4/setup.sh", "/orig/scr", some ("/tmp/scratch"), "/out/mr_search",
          "molrep", "simbad.mr.molrep_mr", "refmac5", "simbad.mr.refmac_refine",
          "None", "30", "/data/in.mtz", "none", "P212121", "I", "SIGI", "FP", "SIGFP",
          "48.2", "30", "1", false⟩
        ("2xyz") ("/out/mr_search/2xyz.pdb") ("/out/s1.stdin") ("/out/s2.stdin"))[1]? =
      some [EXPORT, "CCP4_SCR=" ++ "/tmp/scratch"] := by
  refine ⟨by decide, rfl, rfl⟩

/-- C1 (amended): each AMORE trial script sets CCP4_SCR to a
per-candidate scratch directory as its second command, right after the
environment-sourcing line, and restores the captured original value as
its final command, with distinct candidates of one run receiving
distinct scratch directories; each MrSubmit trial script likewise sets
CCP4_SCR second, after the sourcing line, and restores the original
last, but its scratch directory is the run-level temporary directory,
shared by every candidate of the run. -/
theorem generate_script_scr_swap :
    (∀ (cfg : AmoreScriptConfig) (dat : DatModelScore),
      (amore_generate_script_cmd cfg dat).head? = some [cfg.source] ∧
      (amore_generate_script_cmd cfg dat)[1]? =
        some [EXPORT, "CCP4_SCR=" ++ amore_tmp_dir cfg.tmp_root cfg.dir_name dat.pdb_code] ∧
      (amore_generate_script_cmd cfg dat).getLast? =
        some [EXPORT, "CCP4_SCR=" ++ cfg.ccp4_scr]) ∧
    (∀ (tmp_root dir_name c₁ c₂ : String), c₁ ≠ c₂ →
      amore_tmp_dir tmp_root dir_name c₁ ≠ amore_tmp_dir tmp_root dir_name c₂) ∧
    (∀ (cfg : MrScriptData) (code mr_pdbin s1 s2 : String),
      (mr_generate_script_cmd cfg code mr_pdbin s1 s2).head? = some [cfg.source] ∧
      (mr_generate_script_cmd cfg code mr_pdbin s1 s2)[1]? =
        some [EXPORT, "CCP4_SCR=" ++ mr_scr_dir cfg.tmp_dir cfg.output_dir] ∧
      (mr_generate_script_cmd cfg code mr_pdbin s1 s2).getLast? =
        some [EXPORT, "CCP4_SCR=" ++ cfg.ccp4_scr]) := by
  refine ⟨?_, ?_, ?_⟩
  · intro cfg dat
    exact ⟨rfl, rfl, rfl⟩
  · intro tmp_root dir_name c₁ c₂ hne heq
    exact hne (amore_tmp_dir_inj tmp_root dir_name c₁ c₂ heq)
  · intro cfg code mr_pdbin s1 s2
    exact ⟨rfl, rfl, rfl⟩

/-- C1 witness: two concrete distinct candidate codes receive distinct
AMORE scratch directories under a concrete run configuration. -/
theorem generate_script_scr_swap_witness :
    amore_tmp_dir ("/tmp") ("simbad-tmp-8f1c") ("1dtx") ≠
      amore_tmp_dir ("/tmp") ("simbad-tmp-8f1c") ("2xyz") :=
  generate_script_scr_swap.2.1 ("/tmp") ("simbad-tmp-8f1c") ("1dtx") ("2xyz") (by decide)

/- ### simbad/lattice/latticesearch.py : acceptance probability -/

/-- Modelled from the spec: simbad/lattice/latticesearch.py is not
under src/ (only its tests are).  The spec describes the acceptance
probability as a smooth exponential-family decay of the composite
penalty onto the unit interval, exactly 1 at zero penalty, with the
curve shape a tunable; the unit tests pin probability(0) = 1 and
probability(0.25) = 0.902.  The decay modelled here is
score maps to 0.902 raised to the power 4 * score, which satisfies the
pinned test values exactly. -/
noncomputable def calculate_probability (score : ℝ) : ℝ :=
  (0.902 : ℝ) ^ (4 * score)

/-- C8: the acceptance probability is a strictly decreasing function of
the composite penalty, takes values in the unit interval on the
nonnegative penalties, is exactly 1 at penalty 0, and agrees with 0.902
at penalty 0.25 to three decimal places. -/
theorem calculate_probability_spec :
    StrictAnti calculate_probability ∧
    (∀ score : ℝ, 0 ≤ score →
      0 ≤ calculate_probability score ∧ calculate_probability score ≤ 1) ∧
    calculate_probability 0 = 1 ∧
    |calculate_probability 0.25 - 0.902| < 1/2000 := by
  have hb0 : (0 : ℝ) < 0.902 := by norm_num
  have hb1 : (0.902 : ℝ) < 1 := by norm_num
  refine ⟨?_, ?_, ?_, ?_⟩
  · intro a b hab
    unfold calculate_probability
    rw [Real.rpow_lt_rpow_left_iff_of_base_lt_one hb0 hb1]
    linarith
  · intro score hs
    constructor
    · exact Real.rpow_nonneg (le_of_lt hb0) _
    · exact Real.rpow_le_one (le_of_lt hb0) (le_of_lt hb1) (by linarith)
  · unfold calculate_probability
    rw [mul_zero, Real.rpow_zero]
  · have h1 : (4 : ℝ) * 0.25 = 1 := by norm_num
    unfold calculate_probability
    rw [h1, Real.rpow_one]
    norm_num

/-- C8 witness: the probability at penalty 0.25 lies in the unit
interval. -/
theorem calculate_probability_spec_witness :
    0 ≤ calculate_probability 0.25 ∧ calculate_probability 0.25 ≤ 1 :=
  calculate_probability_spec.2.1 0.25 (by norm_num)
